import Mathlib

/-!
Verification of the ANIMATR desktop command bridge
(`src/desktop/src-tauri/src/lib.rs`).

The bridge invokes `python -m animatr <args>` as a subprocess, captures
stdout/stderr/exit status into a `CommandResult`, and each of the eight
Tauri commands decodes that result into a typed `Result`-or-error value.

Shallow embedding: the operating system's process-spawning facility is an
oracle `os : Invocation → ProcessOutcome`; each operation returns the list
of invocations it performed (its spawn trace) together with its
`Except String α` result, mirroring Rust's `Result<α, String>`.
`serde_json::from_str` is modelled by an executable JSON parser
(`parseJson`) plus per-type decoders that follow serde's derived
deserializers (`Option` fields tolerate absence and `null`; all other
fields are required).
-/

/-- Mirrors the Rust struct `ProjectInfo` (i64 is modelled as `Int`). -/
structure ProjectInfo where
  id : Option Int
  name : String
  description : String
  status : String
  created_at : String
deriving DecidableEq, Repr

/-- Mirrors the Rust struct `RenderStatus`; `progress : f64` is modelled as
`Rat`, which is faithful for every decimal literal JSON can carry and no
claim depends on binary-float rounding. -/
structure RenderStatus where
  job_id : Int
  status : String
  progress : Rat
  current_scene : Option String
  error_message : Option String
deriving DecidableEq, Repr

/-- Mirrors the Rust struct `CommandResult`. -/
structure CommandResult where
  success : Bool
  output : String
  error : Option String
deriving DecidableEq, Repr

/-- One subprocess request: the program name and its full argument vector,
as assembled by `std::process::Command`. -/
structure Invocation where
  program : String
  args : List String
deriving DecidableEq, Repr

/-- What the host OS did with a spawn request: either the process ran to
completion (with an exit-status-is-zero flag and the lossily decoded
stdout/stderr texts), or it could not be spawned at all and the spawn
attempt returned an error with description `msg`. -/
inductive ProcessOutcome where
  | spawned (exit_ok : Bool) (stdout : String) (stderr : String)
  | spawnError (msg : String)
deriving DecidableEq, Repr

/-- The process-spawning facility, as seen by the bridge. -/
def Oracle := Invocation → ProcessOutcome

/-- The fixed invocation shape of `run_python_command`:
`Command::new("python").arg("-m").arg("animatr").args(args)`. -/
def pythonInvocation (args : List String) : Invocation :=
  { program := "python", args := "-m" :: "animatr" :: args }

/-- The `match output` in `run_python_command`: an `Ok` output becomes a
`CommandResult` whose `success` is the exit-status flag, whose `output` is
stdout, and whose `error` is `none` exactly when stderr is empty; a spawn
`Err(e)` becomes `success = false`, `output = ""`, `error = Some(e)`. -/
def decodeOutput : ProcessOutcome → CommandResult
  | .spawned exit_ok stdout stderr =>
      { success := exit_ok
        output := stdout
        error := if stderr.isEmpty then none else some stderr }
  | .spawnError msg =>
      { success := false, output := "", error := some msg }

/-- `run_python_command`: spawns exactly one subprocess (recorded in the
trace) and decodes its outcome. -/
def run_python_command (os : Oracle) (args : List String) :
    List Invocation × CommandResult :=
  let inv := pythonInvocation args
  ([inv], decodeOutput (os inv))

/-! ### JSON model of `serde_json` -/

/-- A JSON value (`serde_json::Value`). Numbers are modelled as rationals. -/
inductive Json where
  | null
  | bool (b : Bool)
  | num (q : Rat)
  | str (s : String)
  | arr (elems : List Json)
  | obj (fields : List (String × Json))
deriving Repr

/-- JSON insignificant whitespace. -/
def isJsonWs (c : Char) : Bool :=
  c = ' ' || c = '\t' || c = '\n' || c = '\r'

/-- Drop leading JSON whitespace. -/
def skipWs : List Char → List Char
  | [] => []
  | c :: cs => if isJsonWs c then skipWs cs else c :: cs

/-- Value of one hexadecimal digit. -/
def hexDigitVal (c : Char) : Except String Nat :=
  if '0' ≤ c && c ≤ '9' then .ok (c.toNat - '0'.toNat)
  else if 'a' ≤ c && c ≤ 'f' then .ok (c.toNat - 'a'.toNat + 10)
  else if 'A' ≤ c && c ≤ 'F' then .ok (c.toNat - 'A'.toNat + 10)
  else .error "invalid hex digit in string escape"

/-- Parse the body of a JSON string after the opening quote, returning the
decoded characters and the remaining input after the closing quote. -/
def parseStringChars : List Char → Except String (List Char × List Char)
  | [] => .error "unterminated string"
  | '"' :: cs => .ok ([], cs)
  | '\\' :: cs =>
    match cs with
    | [] => .error "unterminated string escape"
    | 'u' :: h1 :: h2 :: h3 :: h4 :: rest => do
        let a ← hexDigitVal h1
        let b ← hexDigitVal h2
        let c ← hexDigitVal h3
        let d ← hexDigitVal h4
        let (tail, rem) ← parseStringChars rest
        .ok (Char.ofNat (((a * 16 + b) * 16 + c) * 16 + d) :: tail, rem)
    | e :: rest => do
        let c ← (match e with
          | '"' => Except.ok '"'
          | '\\' => Except.ok '\\'
          | '/' => Except.ok '/'
          | 'n' => Except.ok '\n'
          | 't' => Except.ok '\t'
          | 'r' => Except.ok '\r'
          | 'b' => Except.ok (Char.ofNat 8)
          | 'f' => Except.ok (Char.ofNat 12)
          | _ => Except.error "invalid string escape")
        let (tail, rem) ← parseStringChars rest
        .ok (c :: tail, rem)
  | c :: cs => do
      let (tail, rem) ← parseStringChars cs
      .ok (c :: tail, rem)

/-- Split off a maximal run of decimal digits. -/
def takeDigits : List Char → List Char × List Char
  | [] => ([], [])
  | c :: cs =>
    if c.isDigit then
      let (ds, rest) := takeDigits cs
      (c :: ds, rest)
    else ([], c :: cs)

/-- Numeric value of a digit run. -/
def digitsVal (ds : List Char) : Nat :=
  ds.foldl (fun acc c => acc * 10 + (c.toNat - '0'.toNat)) 0

/-- Parse an optional JSON exponent part (`e`/`E`, optional sign, digits). -/
def parseExponent (cs : List Char) : Except String (Int × List Char) :=
  match cs with
  | 'e' :: rest =>
    parseExponentDigits rest
  | 'E' :: rest =>
    parseExponentDigits rest
  | _ => .ok (0, cs)
where
  parseExponentDigits (rest : List Char) : Except String (Int × List Char) :=
    let (eneg, cs1) :=
      match rest with
      | '+' :: r => (false, r)
      | '-' :: r => (true, r)
      | _ => (false, rest)
    let (eds, cs2) := takeDigits cs1
    if eds.isEmpty then .error "missing exponent digits"
    else .ok (if eneg then -(digitsVal eds : Int) else (digitsVal eds : Int), cs2)

/-- Parse a JSON number (optional minus, integer part with no leading zero,
optional fraction, optional exponent) into a rational. -/
def parseNumber (cs : List Char) : Except String (Rat × List Char) := do
  let (neg, cs1) :=
    match cs with
    | '-' :: rest => (true, rest)
    | _ => (false, cs)
  let (intDs, cs2) := takeDigits cs1
  if intDs.isEmpty then throw "invalid number" else
  if intDs.head? = some '0' && intDs.length > 1 then throw "leading zero in number" else do
  let (fracDs, cs3) ←
    match cs2 with
    | '.' :: rest =>
      let (fds, r) := takeDigits rest
      if fds.isEmpty then throw "missing digits after decimal point"
      else pure (fds, r)
    | _ => pure (([] : List Char), cs2)
  let (expVal, cs4) ← parseExponent cs3
  let mantissa : Int := (digitsVal (intDs ++ fracDs) : Nat)
  let mantissa : Int := if neg then -mantissa else mantissa
  let base : Rat := (mantissa : Rat) / ((10 : Rat) ^ fracDs.length)
  let value : Rat :=
    if 0 ≤ expVal then base * (10 : Rat) ^ expVal.toNat
    else base / ((10 : Rat) ^ (-expVal).toNat)
  .ok (value, cs4)

mutual

/-- Parse one JSON value; `fuel` bounds the recursion depth and is chosen
large enough for the whole input in `parseJson`. -/
def parseValue : Nat → List Char → Except String (Json × List Char)
  | 0, _ => .error "recursion limit exceeded"
  | fuel + 1, cs =>
    match skipWs cs with
    | [] => .error "unexpected end of input"
    | 'n' :: 'u' :: 'l' :: 'l' :: rest => .ok (.null, rest)
    | 't' :: 'r' :: 'u' :: 'e' :: rest => .ok (.bool true, rest)
    | 'f' :: 'a' :: 'l' :: 's' :: 'e' :: rest => .ok (.bool false, rest)
    | '"' :: rest => do
        let (chars, rem) ← parseStringChars rest
        .ok (.str (String.mk chars), rem)
    | '[' :: rest =>
        (match skipWs rest with
         | ']' :: rem => .ok (.arr [], rem)
         | _ => do
            let (items, rem) ← parseArrayItems fuel rest
            .ok (.arr items, rem))
    | '{' :: rest =>
        (match skipWs rest with
         | '}' :: rem => .ok (.obj [], rem)
         | _ => do
            let (fields, rem) ← parseObjectItems fuel rest
            .ok (.obj fields, rem))
    | c :: rest =>
        if c == '-' || c.isDigit then do
          let (q, rem) ← parseNumber (c :: rest)
          .ok (.num q, rem)
        else .error "unexpected character"

/-- Parse the comma-separated items of a non-empty JSON array, up to and
including the closing bracket. -/
def parseArrayItems : Nat → List Char → Except String (List Json × List Char)
  | 0, _ => .error "recursion limit exceeded"
  | fuel + 1, cs => do
      let (v, rem) ← parseValue fuel cs
      match skipWs rem with
      | ',' :: rest => do
          let (vs, rem2) ← parseArrayItems fuel rest
          .ok (v :: vs, rem2)
      | ']' :: rest => .ok ([v], rest)
      | _ => .error "expected comma or closing bracket"

/-- Parse the comma-separated members of a non-empty JSON object, up to and
including the closing brace. -/
def parseObjectItems : Nat → List Char → Except String (List (String × Json) × List Char)
  | 0, _ => .error "recursion limit exceeded"
  | fuel + 1, cs =>
      match skipWs cs with
      | '"' :: rest => do
          let (keyChars, rem) ← parseStringChars rest
          match skipWs rem with
          | ':' :: rest2 => do
              let (v, rem2) ← parseValue fuel rest2
              match skipWs rem2 with
              | ',' :: rest3 => do
                  let (fs, rem3) ← parseObjectItems fuel rest3
                  .ok ((String.mk keyChars, v) :: fs, rem3)
              | '}' :: rest3 => .ok ([(String.mk keyChars, v)], rest3)
              | _ => .error "expected comma or closing brace"
          | _ => .error "expected colon"
      | _ => .error "expected string key"

end

/-- Parse a complete JSON document: one value, with nothing but whitespace
after it. The empty string fails (as `serde_json` does at end of input). -/
def parseJson (s : String) : Except String Json := do
  let (v, rest) ← parseValue (2 * s.length + 2) s.data
  if (skipWs rest).isEmpty then .ok v else .error "trailing characters"

/-! ### serde decoders for the bridge's typed payloads -/

/-- Look up a field of a JSON object (serde uses the first occurrence). -/
def getField (fields : List (String × Json)) (key : String) : Option Json :=
  match fields with
  | [] => none
  | (k, v) :: rest => if k == key then some v else getField rest key

/-- A required field: missing is a deserialization error. -/
def reqField (fields : List (String × Json)) (key : String) : Except String Json :=
  match getField fields key with
  | some v => .ok v
  | none => .error ("missing field " ++ key)

/-- Deserialize a `String` field. -/
def asString : Json → Except String String
  | .str s => .ok s
  | _ => .error "invalid type: expected a string"

/-- Deserialize an `i64` field (a JSON number with no fractional part). -/
def asInt : Json → Except String Int
  | .num q => if q.den = 1 then .ok q.num else .error "invalid type: expected an integer"
  | _ => .error "invalid type: expected an integer"

/-- Deserialize an `f64` field. -/
def asRat : Json → Except String Rat
  | .num q => .ok q
  | _ => .error "invalid type: expected a number"

/-- Deserialize an `Option<String>` field: absent and `null` are `None`. -/
def asOptString : Option Json → Except String (Option String)
  | none => .ok none
  | some .null => .ok none
  | some (.str s) => .ok (some s)
  | some _ => .error "invalid type: expected a string or null"

/-- Deserialize an `Option<i64>` field: absent and `null` are `None`. -/
def asOptInt : Option Json → Except String (Option Int)
  | none => .ok none
  | some .null => .ok none
  | some (.num q) =>
      if q.den = 1 then .ok (some q.num) else .error "invalid type: expected an integer or null"
  | some _ => .error "invalid type: expected an integer or null"

/-- serde's derived deserializer for `ProjectInfo`. -/
def decodeProjectInfo : Json → Except String ProjectInfo
  | .obj fields => do
      let id ← asOptInt (getField fields "id")
      let nameJ ← reqField fields "name"
      let name ← asString nameJ
      let descJ ← reqField fields "description"
      let description ← asString descJ
      let statusJ ← reqField fields "status"
      let status ← asString statusJ
      let createdJ ← reqField fields "created_at"
      let created_at ← asString createdJ
      .ok ⟨id, name, description, status, created_at⟩
  | _ => .error "invalid type: expected an object"

/-- serde's derived deserializer for `RenderStatus`. -/
def decodeRenderStatus : Json → Except String RenderStatus
  | .obj fields => do
      let jobJ ← reqField fields "job_id"
      let job_id ← asInt jobJ
      let statusJ ← reqField fields "status"
      let status ← asString statusJ
      let progJ ← reqField fields "progress"
      let progress ← asRat progJ
      let current_scene ← asOptString (getField fields "current_scene")
      let error_message ← asOptString (getField fields "error_message")
      .ok ⟨job_id, status, progress, current_scene, error_message⟩
  | _ => .error "invalid type: expected an object"

/-- `serde_json::from_str::<Vec<ProjectInfo>>`. -/
def decodeProjects (s : String) : Except String (List ProjectInfo) := do
  let j ← parseJson s
  match j with
  | .arr items => items.mapM decodeProjectInfo
  | _ => .error "invalid type: expected an array"

/-- `serde_json::from_str::<ProjectInfo>`. -/
def decodeProject (s : String) : Except String ProjectInfo := do
  let j ← parseJson s
  decodeProjectInfo j

/-- `serde_json::from_str::<RenderStatus>`. -/
def decodeRender (s : String) : Except String RenderStatus := do
  let j ← parseJson s
  decodeRenderStatus j

/-! ### The eight Tauri commands (Operation Façade) -/

/-- `list_projects`: args `["list", "--json"]`; on success parse stdout as a
project list, on failure report stderr or the fallback `"Unknown error"`. -/
def list_projects (os : Oracle) : List Invocation × Except String (List ProjectInfo) :=
  let (trace, result) := run_python_command os ["list", "--json"]
  (trace,
    if result.success then
      match decodeProjects result.output with
      | .ok v => .ok v
      | .error e => .error ("Failed to parse projects: " ++ e)
    else
      .error (result.error.getD "Unknown error"))

/-- `create_project`: args `["new", name, "--description", description,
"--json"]`; fallback `"Failed to create project"`. -/
def create_project (os : Oracle) (name description : String) :
    List Invocation × Except String ProjectInfo :=
  let (trace, result) := run_python_command os ["new", name, "--description", description, "--json"]
  (trace,
    if result.success then
      match decodeProject result.output with
      | .ok v => .ok v
      | .error e => .error ("Failed to parse project: " ++ e)
    else
      .error (result.error.getD "Failed to create project"))

/-- `validate_spec`: args `["validate", path]`; always returns
`Ok(result.success)`. -/
def validate_spec (os : Oracle) (path : String) : List Invocation × Except String Bool :=
  let (trace, result) := run_python_command os ["validate", path]
  (trace, .ok result.success)

/-- `start_render`: args `["render", "--project-id", id, "--json"]` with the
id rendered by `to_string()`; fallback `"Failed to start render"`. -/
def start_render (os : Oracle) (project_id : Int) :
    List Invocation × Except String RenderStatus :=
  let id_str := toString project_id
  let (trace, result) := run_python_command os ["render", "--project-id", id_str, "--json"]
  (trace,
    if result.success then
      match decodeRender result.output with
      | .ok v => .ok v
      | .error e => .error ("Failed to parse render status: " ++ e)
    else
      .error (result.error.getD "Failed to start render"))

/-- `get_render_status`: args `["status", "--job-id", id, "--json"]`;
fallback `"Failed to get status"`. -/
def get_render_status (os : Oracle) (job_id : Int) :
    List Invocation × Except String RenderStatus :=
  let id_str := toString job_id
  let (trace, result) := run_python_command os ["status", "--job-id", id_str, "--json"]
  (trace,
    if result.success then
      match decodeRender result.output with
      | .ok v => .ok v
      | .error e => .error ("Failed to parse status: " ++ e)
    else
      .error (result.error.getD "Failed to get status"))

/-- `cancel_render`: args `["cancel", "--job-id", id]`; always returns
`Ok(result.success)`. -/
def cancel_render (os : Oracle) (job_id : Int) : List Invocation × Except String Bool :=
  let id_str := toString job_id
  let (trace, result) := run_python_command os ["cancel", "--job-id", id_str]
  (trace, .ok result.success)

/-- `generate_from_prompt`: args `["ai", "generate", "--prompt", prompt,
"--json"]`; on success returns raw stdout (no JSON parsing); fallback
`"Failed to generate"`. -/
def generate_from_prompt (os : Oracle) (prompt : String) :
    List Invocation × Except String String :=
  let (trace, result) := run_python_command os ["ai", "generate", "--prompt", prompt, "--json"]
  (trace,
    if result.success then
      .ok result.output
    else
      .error (result.error.getD "Failed to generate"))

/-- The `serde_json::json!` value of an `Option<String>`. -/
def jsonOfOptString : Option String → Json
  | none => .null
  | some s => .str s

/-- `check_dependencies`: args `["doctor", "--json"]`; on success parse
stdout as a JSON value, on failure return the partial-info payload
`{python: true, moho: false, blender: false, ffmpeg: false, error: ...}`
as a success. -/
def check_dependencies (os : Oracle) : List Invocation × Except String Json :=
  let (trace, result) := run_python_command os ["doctor", "--json"]
  (trace,
    if result.success then
      match parseJson result.output with
      | .ok v => .ok v
      | .error e => .error ("Failed to parse dependencies: " ++ e)
    else
      .ok (.obj [("python", .bool true), ("moho", .bool false), ("blender", .bool false),
                 ("ffmpeg", .bool false), ("error", jsonOfOptString result.error)]))

/-- The stderr text that a spawn request produced, when the process ran at
all: `some stderr` for a spawned process, `none` when nothing was captured
because the spawn itself failed. -/
def capturedStderr : ProcessOutcome → Option String
  | .spawned _ _ stderr => some stderr
  | .spawnError _ => none

/-! ### Helper lemmas -/

/-- `unwrap_or_else` over the stderr-derived `error` field picks stderr when
it is non-empty and the fallback otherwise. -/
theorem getD_stderr_error (fb s : String) :
    (if s.isEmpty then none else some s).getD fb = if s = "" then fb else s := by
  rcases hb : s.isEmpty with _ | _
  · have h : s ≠ "" := by
      intro hc; subst hc; exact absurd hb (by decide)
    simp [hb, h]
  · have h : s = "" := (String.isEmpty_iff s).mp hb
    simp [hb, h]

/-- The `json!` encoding of the stderr-derived `error` field. -/
theorem jsonOfOptString_stderr (s : String) :
    jsonOfOptString (if s.isEmpty then none else some s)
      = if s = "" then Json.null else Json.str s := by
  rcases hb : s.isEmpty with _ | _
  · have h : s ≠ "" := by
      intro hc; subst hc; exact absurd hb (by decide)
    simp [hb, h, jsonOfOptString]
  · have h : s = "" := (String.isEmpty_iff s).mp hb
    simp [hb, h, jsonOfOptString]

/-! ### Claim theorems -/

/-- Claim C1: for each of `list_projects`, `create_project`, `start_render`,
`get_render_status` and `generate_from_prompt` (every operation other than
`validate_spec`, `cancel_render` and `check_dependencies`), a non-zero exit
makes the operation return an error equal to the captured stderr text when
that text is non-empty, and the operation's fixed fallback string
otherwise. -/
theorem C1_nonzero_exit_error_text :
    (∀ stdout stderr : String,
      (list_projects (fun _ => .spawned false stdout stderr)).2
        = .error (if stderr = "" then "Unknown error" else stderr)) ∧
    (∀ stdout stderr name description : String,
      (create_project (fun _ => .spawned false stdout stderr) name description).2
        = .error (if stderr = "" then "Failed to create project" else stderr)) ∧
    (∀ (stdout stderr : String) (project_id : Int),
      (start_render (fun _ => .spawned false stdout stderr) project_id).2
        = .error (if stderr = "" then "Failed to start render" else stderr)) ∧
    (∀ (stdout stderr : String) (job_id : Int),
      (get_render_status (fun _ => .spawned false stdout stderr) job_id).2
        = .error (if stderr = "" then "Failed to get status" else stderr)) ∧
    (∀ stdout stderr prompt : String,
      (generate_from_prompt (fun _ => .spawned false stdout stderr) prompt).2
        = .error (if stderr = "" then "Failed to generate" else stderr)) := by
  refine ⟨?_, ?_, ?_, ?_, ?_⟩ <;> intros <;>
    simp [list_projects, create_project, start_render, get_render_status,
          generate_from_prompt, run_python_command, decodeOutput, getD_stderr_error]

/-- Claim C4: `validate_spec` and `cancel_render` return `Ok` of exactly the
exit-status-derived success flag for every subprocess outcome (any stdout,
any stderr, any exit status, and `false` on spawn failure), and never a
bridge-level error. -/
theorem C4_boolean_ops :
    (∀ (exit_ok : Bool) (stdout stderr path : String),
      (validate_spec (fun _ => .spawned exit_ok stdout stderr) path).2 = .ok exit_ok) ∧
    (∀ msg path : String,
      (validate_spec (fun _ => .spawnError msg) path).2 = .ok false) ∧
    (∀ (exit_ok : Bool) (stdout stderr : String) (job_id : Int),
      (cancel_render (fun _ => .spawned exit_ok stdout stderr) job_id).2 = .ok exit_ok) ∧
    (∀ (msg : String) (job_id : Int),
      (cancel_render (fun _ => .spawnError msg) job_id).2 = .ok false) :=
  ⟨fun _ _ _ _ => rfl, fun _ _ => rfl, fun _ _ _ _ => rfl, fun _ _ => rfl⟩

/-- Claim C5: each operation encodes its argument vector exactly per the
table in §4.2 of the spec, with text parameters passed as single opaque
argv elements and numeric ids rendered by `toString` (canonical base-10
form of an `Int`). -/
theorem C5_argument_vectors :
    (∀ os : Oracle, (list_projects os).1
      = [{ program := "python", args := ["-m", "animatr", "list", "--json"] }]) ∧
    (∀ (os : Oracle) (name description : String), (create_project os name description).1
      = [{ program := "python",
           args := ["-m", "animatr", "new", name, "--description", description, "--json"] }]) ∧
    (∀ (os : Oracle) (path : String), (validate_spec os path).1
      = [{ program := "python", args := ["-m", "animatr", "validate", path] }]) ∧
    (∀ (os : Oracle) (project_id : Int), (start_render os project_id).1
      = [{ program := "python",
           args := ["-m", "animatr", "render", "--project-id", toString project_id, "--json"] }]) ∧
    (∀ (os : Oracle) (job_id : Int), (get_render_status os job_id).1
      = [{ program := "python",
           args := ["-m", "animatr", "status", "--job-id", toString job_id, "--json"] }]) ∧
    (∀ (os : Oracle) (job_id : Int), (cancel_render os job_id).1
      = [{ program := "python",
           args := ["-m", "animatr", "cancel", "--job-id", toString job_id] }]) ∧
    (∀ (os : Oracle) (prompt : String), (generate_from_prompt os prompt).1
      = [{ program := "python",
           args := ["-m", "animatr", "ai", "generate", "--prompt", prompt, "--json"] }]) ∧
    (∀ os : Oracle, (check_dependencies os).1
      = [{ program := "python", args := ["-m", "animatr", "doctor", "--json"] }]) :=
  ⟨fun _ => rfl, fun _ _ _ => rfl, fun _ _ => rfl, fun _ _ => rfl, fun _ _ => rfl,
   fun _ _ => rfl, fun _ _ => rfl, fun _ => rfl⟩

/-- Claim C6: when the program cannot be spawned, the Process Invoker
returns `success = false`, `output = ""`, `error = some` of the spawn
error's description; a process that spawned is decoded by the other branch,
which keeps its stdout and derives `error` from its stderr, so the two
cases are reported differently. -/
theorem C6_spawn_failure_command_result :
    (∀ (msg : String) (args : List String),
      (run_python_command (fun _ => .spawnError msg) args).2
        = { success := false, output := "", error := some msg }) ∧
    (∀ (exit_ok : Bool) (stdout stderr : String) (args : List String),
      (run_python_command (fun _ => .spawned exit_ok stdout stderr) args).2
        = { success := exit_ok, output := stdout,
            error := if stderr.isEmpty then none else some stderr }) :=
  ⟨fun _ _ => rfl, fun _ _ _ _ => rfl⟩

/-- Claim C7: a `CommandResult`'s `error` is `none` exactly when a stderr
stream was captured and was empty, independently of `success`: a zero exit
can carry a non-empty `error` (stderr as a warning channel) and a non-zero
exit can carry `error = none` (opaque failure). -/
theorem C7_error_none_iff_stderr_empty :
    (∀ o : ProcessOutcome, (decodeOutput o).error = none ↔ capturedStderr o = some "") ∧
    ((decodeOutput (.spawned true "out" "warning")).success = true
      ∧ (decodeOutput (.spawned true "out" "warning")).error = some "warning") ∧
    ((decodeOutput (.spawned false "data" "")).success = false
      ∧ (decodeOutput (.spawned false "data" "")).error = none) := by
  refine ⟨fun o => ?_, ⟨rfl, rfl⟩, ⟨rfl, rfl⟩⟩
  cases o with
  | spawned exit_ok stdout stderr =>
      rcases hb : stderr.isEmpty with _ | _
      · have h : stderr ≠ "" := by
          intro hc; subst hc; exact absurd hb (by decide)
        simp [decodeOutput, capturedStderr, hb, h]
      · have h : stderr = "" := (String.isEmpty_iff stderr).mp hb
        subst h
        simp [decodeOutput, capturedStderr, hb]
  | spawnError msg => simp [decodeOutput, capturedStderr]

/-- Claim C9: on a zero exit, `generate_from_prompt` returns the captured
stdout verbatim as its success value with no JSON parsing, including when
stdout is empty or not valid JSON. -/
theorem C9_generate_returns_stdout_verbatim :
    ∀ stdout stderr prompt : String,
      (generate_from_prompt (fun _ => .spawned true stdout stderr) prompt).2 = .ok stdout :=
  fun _ _ _ => rfl

/-- Claim C10: every one of the eight operations spawns exactly one
subprocess (a one-element trace), always the program `"python"` with the
fixed leading arguments `"-m"`, `"animatr"` prepended to its
operation-specific argument vector. -/
theorem C10_single_python_subprocess :
    (∀ args : List String, pythonInvocation args
      = { program := "python", args := "-m" :: "animatr" :: args }) ∧
    (∀ os : Oracle, (list_projects os).1 = [pythonInvocation ["list", "--json"]]) ∧
    (∀ (os : Oracle) (name description : String),
      (create_project os name description).1
        = [pythonInvocation ["new", name, "--description", description, "--json"]]) ∧
    (∀ (os : Oracle) (path : String),
      (validate_spec os path).1 = [pythonInvocation ["validate", path]]) ∧
    (∀ (os : Oracle) (project_id : Int),
      (start_render os project_id).1
        = [pythonInvocation ["render", "--project-id", toString project_id, "--json"]]) ∧
    (∀ (os : Oracle) (job_id : Int),
      (get_render_status os job_id).1
        = [pythonInvocation ["status", "--job-id", toString job_id, "--json"]]) ∧
    (∀ (os : Oracle) (job_id : Int),
      (cancel_render os job_id).1
        = [pythonInvocation ["cancel", "--job-id", toString job_id]]) ∧
    (∀ (os : Oracle) (prompt : String),
      (generate_from_prompt os prompt).1
        = [pythonInvocation ["ai", "generate", "--prompt", prompt, "--json"]]) ∧
    (∀ os : Oracle, (check_dependencies os).1 = [pythonInvocation ["doctor", "--json"]]) :=
  ⟨fun _ => rfl, fun _ => rfl, fun _ _ _ => rfl, fun _ _ => rfl, fun _ _ => rfl,
   fun _ _ => rfl, fun _ _ => rfl, fun _ _ => rfl, fun _ => rfl⟩

/-- Claim C2 counterexample: `generate_from_prompt` is a JSON-returning
operation per the spec's payload-format table, yet on a zero exit with
empty stdout it returns the empty string as a success value instead of a
decode error: it performs no JSON parsing at all. -/
theorem C2_counterexample :
    (generate_from_prompt (fun _ => .spawned true "" "") "storyboard").2
      = .ok "" := rfl

/-- Claim C2 (amended): for `list_projects`, `create_project`,
`start_render`, `get_render_status` and `check_dependencies` — the
JSON-parsing operations, which exclude `generate_from_prompt` — a zero exit
whose stdout fails to decode as the expected shape yields a decode error,
never a default or empty success value; and the empty string fails every
one of those decoders. -/
theorem C2_decode_error_on_bad_stdout :
    (∀ stdout stderr e : String, decodeProjects stdout = .error e →
      (list_projects (fun _ => .spawned true stdout stderr)).2
        = .error ("Failed to parse projects: " ++ e)) ∧
    (∀ stdout stderr name description e : String, decodeProject stdout = .error e →
      (create_project (fun _ => .spawned true stdout stderr) name description).2
        = .error ("Failed to parse project: " ++ e)) ∧
    (∀ (stdout stderr e : String) (project_id : Int), decodeRender stdout = .error e →
      (start_render (fun _ => .spawned true stdout stderr) project_id).2
        = .error ("Failed to parse render status: " ++ e)) ∧
    (∀ (stdout stderr e : String) (job_id : Int), decodeRender stdout = .error e →
      (get_render_status (fun _ => .spawned true stdout stderr) job_id).2
        = .error ("Failed to parse status: " ++ e)) ∧
    (∀ stdout stderr e : String, parseJson stdout = .error e →
      (check_dependencies (fun _ => .spawned true stdout stderr)).2
        = .error ("Failed to parse dependencies: " ++ e)) ∧
    (decodeProjects "" = .error "unexpected end of input"
      ∧ decodeProject "" = .error "unexpected end of input"
      ∧ decodeRender "" = .error "unexpected end of input"
      ∧ parseJson "" = .error "unexpected end of input") := by
  refine ⟨?_, ?_, ?_, ?_, ?_, rfl, rfl, rfl, rfl⟩
  · intro stdout stderr e h
    simp [list_projects, run_python_command, decodeOutput, h]
  · intro stdout stderr name description e h
    simp [create_project, run_python_command, decodeOutput, h]
  · intro stdout stderr e project_id h
    simp [start_render, run_python_command, decodeOutput, h]
  · intro stdout stderr e job_id h
    simp [get_render_status, run_python_command, decodeOutput, h]
  · intro stdout stderr e h
    simp [check_dependencies, run_python_command, decodeOutput, h]

/-- Claim C2 witness: `list_projects` on a zero exit with empty stdout
returns the decode error built from the parser's end-of-input message. -/
theorem C2_decode_error_on_bad_stdout_witness :
    (list_projects (fun _ => .spawned true "" "")).2
      = .error ("Failed to parse projects: " ++ "unexpected end of input") :=
  C2_decode_error_on_bad_stdout.1 "" "" "unexpected end of input" rfl

/-- Claim C3 counterexample: on a spawn failure `check_dependencies` does
return a structured success, but the payload reports the `python` flag as
`true`, not `false` — so not every dependency flag is false. -/
theorem C3_counterexample :
    (check_dependencies (fun _ => .spawnError "boom")).2
      = .ok (Json.obj [("python", Json.bool true), ("moho", Json.bool false),
                       ("blender", Json.bool false), ("ffmpeg", Json.bool false),
                       ("error", Json.str "boom")]) := rfl

/-- Claim C3 (amended): for every failed subprocess invocation (spawn
failure or non-zero exit), `check_dependencies` returns a structured
success whose payload reports `python` as `true` and every other
dependency flag (`moho`, `blender`, `ffmpeg`) as `false`, with an embedded
`error` field carrying the failure's error text when there is one (the
stderr text or spawn error description) and `null` otherwise; it never
returns a bridge-level error in that case. -/
theorem C3_degraded_success :
    (∀ msg : String,
      (check_dependencies (fun _ => .spawnError msg)).2
        = .ok (Json.obj [("python", Json.bool true), ("moho", Json.bool false),
                         ("blender", Json.bool false), ("ffmpeg", Json.bool false),
                         ("error", Json.str msg)])) ∧
    (∀ stdout stderr : String,
      (check_dependencies (fun _ => .spawned false stdout stderr)).2
        = .ok (Json.obj [("python", Json.bool true), ("moho", Json.bool false),
                         ("blender", Json.bool false), ("ffmpeg", Json.bool false),
                         ("error", if stderr = "" then Json.null else Json.str stderr)])) := by
  refine ⟨fun msg => rfl, fun stdout stderr => ?_⟩
  simp [check_dependencies, run_python_command, decodeOutput, jsonOfOptString_stderr]

/-- Claim C8 counterexample: a spawn error does not propagate from
`validate_spec` as a typed error value — the operation absorbs it into
`Ok(false)` instead of surfacing the spawn error's text. -/
theorem C8_counterexample :
    (validate_spec (fun _ => .spawnError "python: command not found") "demo.yaml").2
      = .ok false := rfl

/-- Claim C8 (amended): for every operation other than `validate_spec`,
`cancel_render` and `check_dependencies`, errors from spawn failure,
non-zero exit and decode failure propagate to the caller as a typed error
value, with a spawn error surfaced as the operation's error text, and the
bridge performs no automatic retry (each call spawns exactly one
subprocess, whatever the oracle answers); `validate_spec` and
`cancel_render` instead fold a spawn failure into the success boolean
`false`, and `check_dependencies` absorbs it into a degraded structured
success. -/
theorem C8_error_propagation :
    (∀ msg : String, (list_projects (fun _ => .spawnError msg)).2 = .error msg) ∧
    (∀ msg name description : String,
      (create_project (fun _ => .spawnError msg) name description).2 = .error msg) ∧
    (∀ (msg : String) (project_id : Int),
      (start_render (fun _ => .spawnError msg) project_id).2 = .error msg) ∧
    (∀ (msg : String) (job_id : Int),
      (get_render_status (fun _ => .spawnError msg) job_id).2 = .error msg) ∧
    (∀ msg prompt : String,
      (generate_from_prompt (fun _ => .spawnError msg) prompt).2 = .error msg) ∧
    (∀ stdout stderr : String, ∃ e : String,
      (list_projects (fun _ => .spawned false stdout stderr)).2 = .error e) ∧
    (∀ stdout stderr name description : String, ∃ e : String,
      (create_project (fun _ => .spawned false stdout stderr) name description).2
        = .error e) ∧
    (∀ (stdout stderr : String) (project_id : Int), ∃ e : String,
      (start_render (fun _ => .spawned false stdout stderr) project_id).2 = .error e) ∧
    (∀ (stdout stderr : String) (job_id : Int), ∃ e : String,
      (get_render_status (fun _ => .spawned false stdout stderr) job_id).2 = .error e) ∧
    (∀ stdout stderr prompt : String, ∃ e : String,
      (generate_from_prompt (fun _ => .spawned false stdout stderr) prompt).2 = .error e) ∧
    (∀ stdout stderr e : String, decodeProjects stdout = .error e →
      (list_projects (fun _ => .spawned true stdout stderr)).2
        = .error ("Failed to parse projects: " ++ e)) ∧
    (∀ stdout stderr name description e : String, decodeProject stdout = .error e →
      (create_project (fun _ => .spawned true stdout stderr) name description).2
        = .error ("Failed to parse project: " ++ e)) ∧
    (∀ (stdout stderr e : String) (project_id : Int), decodeRender stdout = .error e →
      (start_render (fun _ => .spawned true stdout stderr) project_id).2
        = .error ("Failed to parse render status: " ++ e)) ∧
    (∀ (stdout stderr e : String) (job_id : Int), decodeRender stdout = .error e →
      (get_render_status (fun _ => .spawned true stdout stderr) job_id).2
        = .error ("Failed to parse status: " ++ e)) ∧
    (∀ os : Oracle, (list_projects os).1.length = 1) ∧
    (∀ (os : Oracle) (name description : String),
      (create_project os name description).1.length = 1) ∧
    (∀ (os : Oracle) (project_id : Int), (start_render os project_id).1.length = 1) ∧
    (∀ (os : Oracle) (job_id : Int), (get_render_status os job_id).1.length = 1) ∧
    (∀ (os : Oracle) (prompt : String), (generate_from_prompt os prompt).1.length = 1) ∧
    (∀ msg path : String, (validate_spec (fun _ => .spawnError msg) path).2 = .ok false) ∧
    (∀ (msg : String) (job_id : Int),
      (cancel_render (fun _ => .spawnError msg) job_id).2 = .ok false) ∧
    (∀ msg : String, ∃ j : Json,
      (check_dependencies (fun _ => .spawnError msg)).2 = .ok j) := by
  refine ⟨fun _ => rfl, fun _ _ _ => rfl, fun _ _ => rfl, fun _ _ => rfl, fun _ _ => rfl,
          fun _ _ => ⟨_, rfl⟩, fun _ _ _ _ => ⟨_, rfl⟩, fun _ _ _ => ⟨_, rfl⟩,
          fun _ _ _ => ⟨_, rfl⟩, fun _ _ _ => ⟨_, rfl⟩, ?_, ?_, ?_, ?_,
          fun _ => rfl, fun _ _ _ => rfl, fun _ _ => rfl, fun _ _ => rfl, fun _ _ => rfl,
          fun _ _ => rfl, fun _ _ => rfl, fun _ => ⟨_, rfl⟩⟩
  · intro stdout stderr e h
    simp [list_projects, run_python_command, decodeOutput, h]
  · intro stdout stderr name description e h
    simp [create_project, run_python_command, decodeOutput, h]
  · intro stdout stderr e project_id h
    simp [start_render, run_python_command, decodeOutput, h]
  · intro stdout stderr e job_id h
    simp [get_render_status, run_python_command, decodeOutput, h]

/-- Claim C8 witness: `start_render` on a zero exit whose stdout is the
unparseable text `"["` propagates a decode error. -/
theorem C8_error_propagation_witness :
    (start_render (fun _ => .spawned true "[" "") 5).2
      = .error ("Failed to parse render status: " ++ "unexpected end of input") :=
  C8_error_propagation.2.2.2.2.2.2.2.2.2.2.2.2.1 "[" "" "unexpected end of input" 5 rfl
